import Mathlib

/-!
# Verification of the morsimple rule-based categorization engine

Shallow embedding of `src/categories.py`: the rule data model, the rule
loader `load_rules`, and the matcher `categorize_transaction`, together
with theorems settling the specification claims about them.

Python strings are modelled as Lean `String`; Python `None` for an
optional string as `Option String`; the Python substring test
`needle in hay` as `needle.data <:+: hay.data` on character lists;
`str.lower()` as `lowerStr` (characterwise `Char.toLower`).  The YAML file system interaction of
`load_rules` is abstracted: existence of the rule file is a `Bool`
parameter and the result of `yaml.safe_load` is an `Option ParsedDoc`
(`none` models an empty/null YAML document, for which `safe_load`
returns Python `None`).  A raised Python exception is modelled as
`Except.error`, and the non-fatal warning prints are recorded as a
`Bool` flag in the result.
-/

/-- A `type_rules` entry of the rule file: fields `type` (required),
`subtype` (optional: `none` models a YAML entry without the key, i.e.
Python `rule.get('subtype') is None`), `category` (required).
Mirrors the dict shape read by `src/categories.py`. -/
structure TypeRule where
  type : String
  subtype : Option String
  category : String
deriving DecidableEq, Repr

/-- A `merchant_rules` entry of the rule file: fields `keyword` and
`category`, both required strings. -/
structure MerchantRule where
  keyword : String
  category : String
deriving DecidableEq, Repr

/-- The rule set shape returned by `load_rules`: the two ordered lists
under the keys `type_rules` and `merchant_rules`. -/
structure RuleSet where
  type_rules : List TypeRule
  merchant_rules : List MerchantRule
deriving DecidableEq, Repr

/-- Result of `yaml.safe_load` on an existing rule file whose top level
is a mapping: each of the two recognised keys is present (`some`) or
absent (`none`); other keys are never read by `load_rules` and are not
modelled. -/
structure ParsedDoc where
  type_rules : Option (List TypeRule)
  merchant_rules : Option (List MerchantRule)
deriving DecidableEq, Repr

/-- `load_rules` of `src/categories.py` (lines 14-40).  `fileExists`
models `path.exists()`; `doc` models the value of
`yaml.safe_load(f)` for the existing file, with `none` standing for an
empty or null YAML document (Python `None`).  If the file is missing,
the function prints a warning (recorded as the `true` flag in the
result) and returns the empty rule set.  Otherwise it builds the rule
set via `rules.get('type_rules', [])` and `rules.get('merchant_rules', [])`;
when `safe_load` returned `None`, that `.get` call raises
`AttributeError`, modelled as `Except.error`. -/
def load_rules (fileExists : Bool) (doc : Option ParsedDoc) :
    Except String (RuleSet × Bool) :=
  if fileExists = false then
    Except.ok ({ type_rules := [], merchant_rules := [] }, true)
  else
    match doc with
    | none =>
        Except.error "AttributeError: NoneType object has no attribute get"
    | some d =>
        Except.ok
          ({ type_rules := d.type_rules.getD [],
             merchant_rules := d.merchant_rules.getD [] }, false)

/-- Python `str.lower()`: lowercase every character.  (Equivalent to
Lean `String.toLower`, but written over the character list so that the
kernel can evaluate it on concrete strings.) -/
def lowerStr (s : String) : String :=
  ⟨s.data.map Char.toLower⟩

/-- First loop of `categorize_transaction` (lines 67-72): scan the type
rules in order; skip rules whose `type` differs from the transaction
type; return the category of the first rule whose `subtype` is set and
equals the transaction subtype.  `some rs = sub` mirrors the Python
`rule_subtype == sub_type` (a string compares equal to an
`Optional[str]` exactly when the latter is that string). -/
def scanCCSubtype (T : String) (sub : Option String) :
    List TypeRule → Option String
  | [] => none
  | r :: rest =>
    if r.type = T then
      match r.subtype with
      | some rs =>
          if some rs = sub then some r.category
          else scanCCSubtype T sub rest
      | none => scanCCSubtype T sub rest
    else scanCCSubtype T sub rest

/-- Merchant loop of `categorize_transaction` (lines 76-78): return the
category of the first merchant rule whose keyword is a substring
(`in`) of the already-lowercased merchant text. -/
def scanMerchant (merchantLower : String) :
    List MerchantRule → Option String
  | [] => none
  | r :: rest =>
    if r.keyword.data <:+: merchantLower.data then some r.category
    else scanMerchant merchantLower rest

/-- General-type loop of `categorize_transaction` (lines 84-92):
`best` is the running `best_match`.  A rule of another type is skipped;
an exact subtype match returns immediately; a subtype-less rule is
recorded as fallback only when no fallback is recorded yet. -/
def scanGeneral (T : String) (sub : Option String) :
    List TypeRule → Option String → Option String
  | [], best => best
  | r :: rest, best =>
    if r.type = T then
      match r.subtype with
      | some rs =>
          if some rs = sub then some r.category
          else scanGeneral T sub rest best
      | none =>
          match best with
          | none => scanGeneral T sub rest (some r.category)
          | some b => scanGeneral T sub rest (some b)
    else scanGeneral T sub rest best

/-- `categorize_transaction` of `src/categories.py` (lines 43-97).
For `CREDIT_CARD` transactions: exact-subtype type rules first, then
merchant keyword matching on the lowercased merchant text, else `""`.
For all other types: one scan recording a subtype-less fallback and
short-circuiting on an exact subtype match, then the fallback if any,
else `""`. -/
def categorize_transaction (tx_type : String) (sub_type : Option String)
    (merchant : String) (rules : RuleSet) : String :=
  if tx_type = "CREDIT_CARD" then
    match scanCCSubtype tx_type sub_type rules.type_rules with
    | some c => c
    | none =>
        match scanMerchant (lowerStr merchant) rules.merchant_rules with
        | some c => c
        | none => ""
  else
    match scanGeneral tx_type sub_type rules.type_rules none with
    | some c => c
    | none => ""

/-! ## Specification-side descriptions of "first matching rule"

These restate, independently of the loop implementations above, which
rule the spec designates: the first list element satisfying the
relevant match predicate. -/

/-- A type rule is an exact match for transaction type `T` and subtype
`sub` when its `type` is `T` and its `subtype` is set and equals
`sub`. -/
def exactMatch (T : String) (sub : Option String) (r : TypeRule) : Bool :=
  r.type == T &&
    (match r.subtype with
     | some rs => some rs == sub
     | none => false)

/-- A type rule is a generic (type-only, fallback) rule for `T` when
its `type` is `T` and its `subtype` is unset. -/
def genericMatch (T : String) (r : TypeRule) : Bool :=
  r.type == T &&
    (match r.subtype with
     | some _ => false
     | none => true)

/-- A merchant rule matches the lowercased merchant text when its
keyword is a substring of it. -/
def keywordMatch (merchantLower : String) (r : MerchantRule) : Bool :=
  decide (r.keyword.data <:+: merchantLower.data)

/-- Category of the first exact-subtype rule for `(T, sub)` in
declaration order, if any. -/
def specFirstExact (T : String) (sub : Option String)
    (l : List TypeRule) : Option String :=
  (l.find? (exactMatch T sub)).map TypeRule.category

/-- Category of the first generic (type-only) rule for `T` in
declaration order, if any. -/
def specFirstGeneric (T : String) (l : List TypeRule) : Option String :=
  (l.find? (genericMatch T)).map TypeRule.category

/-- Category of the first merchant rule whose keyword is a substring of
the lowercased merchant text, in declaration order, if any. -/
def specFirstKeyword (merchantLower : String)
    (l : List MerchantRule) : Option String :=
  (l.find? (keywordMatch merchantLower)).map MerchantRule.category

/-- No rule in `l` is an exact-subtype match for `(T, sub)`. -/
def noExactMatch (T : String) (sub : Option String)
    (l : List TypeRule) : Prop :=
  ∀ r ∈ l, exactMatch T sub r = false

instance (T : String) (sub : Option String) (l : List TypeRule) :
    Decidable (noExactMatch T sub l) := by
  unfold noExactMatch; infer_instance


/-! ## Evaluation lemmas for the match predicates -/

theorem exactMatch_of_no_subtype (T : String) (sub : Option String)
    (r : TypeRule) (hsub : r.subtype = none) :
    exactMatch T sub r = false := by
  simp [exactMatch, hsub]

theorem exactMatch_of_subtype_ne (T : String) (sub : Option String)
    (r : TypeRule) (rs : String) (hsub : r.subtype = some rs)
    (hm : ¬ some rs = sub) :
    exactMatch T sub r = false := by
  have hms : (some rs == sub) = false := beq_eq_false_iff_ne.mpr hm
  simp [exactMatch, hsub, hms]

theorem exactMatch_of_type_ne (T : String) (sub : Option String)
    (r : TypeRule) (hT : ¬ r.type = T) :
    exactMatch T sub r = false := by
  have hTb : (r.type == T) = false := beq_eq_false_iff_ne.mpr hT
  simp [exactMatch, hTb]

theorem exactMatch_of_eq (T : String) (sub : Option String) (r : TypeRule)
    (rs : String) (hT : r.type = T) (hsub : r.subtype = some rs)
    (hm : some rs = sub) :
    exactMatch T sub r = true := by
  simp [exactMatch, hT, hsub, ← hm]

theorem subtype_ne_of_exactMatch_false (T : String) (sub : Option String)
    (r : TypeRule) (rs : String) (hr : exactMatch T sub r = false)
    (hT : r.type = T) (hsub : r.subtype = some rs) :
    ¬ some rs = sub := by
  intro hm
  rw [exactMatch_of_eq T sub r rs hT hsub hm] at hr
  exact absurd hr (by simp)

theorem genericMatch_of_no_subtype (T : String) (r : TypeRule)
    (hT : r.type = T) (hsub : r.subtype = none) :
    genericMatch T r = true := by
  simp [genericMatch, hT, hsub]

theorem genericMatch_of_subtype (T : String) (r : TypeRule) (rs : String)
    (hsub : r.subtype = some rs) :
    genericMatch T r = false := by
  simp [genericMatch, hsub]

theorem genericMatch_of_type_ne (T : String) (r : TypeRule)
    (hT : ¬ r.type = T) :
    genericMatch T r = false := by
  have hTb : (r.type == T) = false := beq_eq_false_iff_ne.mpr hT
  simp [genericMatch, hTb]

/-! ## Correspondence between the scanning loops and first-match
specifications -/

theorem scanCCSubtype_eq (T : String) (sub : Option String)
    (l : List TypeRule) :
    scanCCSubtype T sub l = specFirstExact T sub l := by
  induction l with
  | nil => rfl
  | cons r rest ih =>
    by_cases hT : r.type = T
    · cases hsub : r.subtype with
      | none =>
        have hb := exactMatch_of_no_subtype T sub r hsub
        simp [scanCCSubtype, specFirstExact, List.find?_cons, hT, hsub,
          hb, ih]
      | some rs =>
        by_cases hm : some rs = sub
        · have hb := exactMatch_of_eq T sub r rs hT hsub hm
          simp only [scanCCSubtype, specFirstExact, List.find?_cons, hb,
            if_pos hT, hsub]
          rw [if_pos hm]
          simp
        · have hb := exactMatch_of_subtype_ne T sub r rs hsub hm
          simp [scanCCSubtype, specFirstExact, List.find?_cons, hT, hsub,
            hm, hb, ih]
    · have hb := exactMatch_of_type_ne T sub r hT
      simp [scanCCSubtype, specFirstExact, List.find?_cons, hT, hb, ih]

theorem scanMerchant_eq (ml : String) (l : List MerchantRule) :
    scanMerchant ml l = specFirstKeyword ml l := by
  induction l with
  | nil => rfl
  | cons r rest ih =>
    by_cases hk : r.keyword.data <:+: ml.data
    · have hb : keywordMatch ml r = true := by simp [keywordMatch, hk]
      simp [scanMerchant, specFirstKeyword, List.find?_cons, hk, hb]
    · have hb : keywordMatch ml r = false := by simp [keywordMatch, hk]
      simp [scanMerchant, specFirstKeyword, List.find?_cons, hk, hb, ih]

theorem specFirstExact_eq_none (T : String) (sub : Option String)
    (l : List TypeRule) :
    specFirstExact T sub l = none ↔ noExactMatch T sub l := by
  simp [specFirstExact, noExactMatch, List.find?_eq_none]

theorem scanGeneral_of_exact (T : String) (sub : Option String)
    (l : List TypeRule) (c : String)
    (h : specFirstExact T sub l = some c) :
    ∀ best, scanGeneral T sub l best = some c := by
  induction l with
  | nil => simp [specFirstExact] at h
  | cons r rest ih =>
    intro best
    by_cases hT : r.type = T
    · cases hsub : r.subtype with
      | none =>
        have hb := exactMatch_of_no_subtype T sub r hsub
        rw [specFirstExact, List.find?_cons, hb] at h
        have h' : specFirstExact T sub rest = some c := h
        simp only [scanGeneral, if_pos hT, hsub]
        cases best with
        | none => exact ih h' _
        | some b => exact ih h' _
      | some rs =>
        by_cases hm : some rs = sub
        · have hb := exactMatch_of_eq T sub r rs hT hsub hm
          rw [specFirstExact, List.find?_cons, hb] at h
          simp only [Option.map] at h
          simp only [Option.some.injEq] at h
          simp only [scanGeneral, if_pos hT, hsub]
          rw [if_pos hm, h]
        · have hb := exactMatch_of_subtype_ne T sub r rs hsub hm
          rw [specFirstExact, List.find?_cons, hb] at h
          have h' : specFirstExact T sub rest = some c := h
          simp only [scanGeneral, if_pos hT, hsub, if_neg hm]
          exact ih h' best
    · have hb := exactMatch_of_type_ne T sub r hT
      rw [specFirstExact, List.find?_cons, hb] at h
      have h' : specFirstExact T sub rest = some c := h
      simp only [scanGeneral, if_neg hT]
      exact ih h' best

theorem scanGeneral_keep_best (T : String) (sub : Option String)
    (l : List TypeRule) (b : String)
    (h : noExactMatch T sub l) :
    scanGeneral T sub l (some b) = some b := by
  induction l with
  | nil => rfl
  | cons r rest ih =>
    have hr := h r (List.mem_cons_self r rest)
    have hrest : noExactMatch T sub rest := fun x hx =>
      h x (List.mem_cons_of_mem r hx)
    by_cases hT : r.type = T
    · cases hsub : r.subtype with
      | none => simp [scanGeneral, hT, hsub, ih hrest]
      | some rs =>
        have hm := subtype_ne_of_exactMatch_false T sub r rs hr hT hsub
        simp [scanGeneral, hT, hsub, hm, ih hrest]
    · simp [scanGeneral, hT, ih hrest]

theorem scanGeneral_no_exact (T : String) (sub : Option String)
    (l : List TypeRule)
    (h : noExactMatch T sub l) :
    scanGeneral T sub l none = specFirstGeneric T l := by
  induction l with
  | nil => rfl
  | cons r rest ih =>
    have hr := h r (List.mem_cons_self r rest)
    have hrest : noExactMatch T sub rest := fun x hx =>
      h x (List.mem_cons_of_mem r hx)
    by_cases hT : r.type = T
    · cases hsub : r.subtype with
      | none =>
        have hg := genericMatch_of_no_subtype T r hT hsub
        simp [scanGeneral, specFirstGeneric, List.find?_cons, hT, hsub,
          hg, scanGeneral_keep_best T sub rest r.category hrest]
      | some rs =>
        have hm := subtype_ne_of_exactMatch_false T sub r rs hr hT hsub
        have hg := genericMatch_of_subtype T r rs hsub
        simp [scanGeneral, specFirstGeneric, List.find?_cons, hT, hsub,
          hm, hg, ih hrest]
    · have hg := genericMatch_of_type_ne T r hT
      simp [scanGeneral, specFirstGeneric, List.find?_cons, hT, hg,
        ih hrest]

/-! ## Claim theorems -/

/-- Claim C1, counterexample: the claim quantifies over all transaction
types including the `CREDIT_CARD` marker, but for a `CREDIT_CARD`
transaction the code never consults a type-only rule: with the single
type-only rule `{type: CREDIT_CARD, category: X}`, no exact-subtype
rule matching, and no merchant rules, `categorize_transaction` returns
`""`, not `"X"`. -/
theorem C1_counterexample :
    noExactMatch "CREDIT_CARD" none [⟨"CREDIT_CARD", none, "X"⟩]
    ∧ categorize_transaction "CREDIT_CARD" none "any merchant"
        ⟨[⟨"CREDIT_CARD", none, "X"⟩], []⟩ = ""
    ∧ ("" : String) ≠ "X" := by
  refine ⟨by decide, by decide, by decide⟩

/-- Claim C1, amended: for every rule set and transaction whose type
`T` is NOT the `CREDIT_CARD` marker, if no rule for `T` has a set
subtype equal to the transaction subtype and the first type-only rule
for `T` has category `C`, then `categorize_transaction` returns `C`
for any subtype and any merchant text. -/
theorem C1_amended_type_only_rule (T : String) (sub : Option String)
    (m : String) (rules : RuleSet) (C : String)
    (hT : T ≠ "CREDIT_CARD")
    (hnoexact : noExactMatch T sub rules.type_rules)
    (hfirst : specFirstGeneric T rules.type_rules = some C) :
    categorize_transaction T sub m rules = C := by
  simp only [categorize_transaction, if_neg hT]
  rw [scanGeneral_no_exact T sub rules.type_rules hnoexact, hfirst]

/-- Witness for C1 (amended) at a concrete input. -/
theorem C1_amended_witness :
    ("INTEREST" : String) ≠ "CREDIT_CARD"
    ∧ noExactMatch "INTEREST" none [⟨"INTEREST", none, "Interest Income"⟩]
    ∧ specFirstGeneric "INTEREST" [⟨"INTEREST", none, "Interest Income"⟩]
        = some "Interest Income"
    ∧ categorize_transaction "INTEREST" none "Interest Paid"
        ⟨[⟨"INTEREST", none, "Interest Income"⟩], []⟩ = "Interest Income" :=
  ⟨by decide, by decide, by decide,
    C1_amended_type_only_rule "INTEREST" none "Interest Paid"
      ⟨[⟨"INTEREST", none, "Interest Income"⟩], []⟩ "Interest Income"
      (by decide) (by decide) (by decide)⟩

/-- Claim C2: for a non-`CREDIT_CARD` transaction, if the first
exact-subtype rule for the transaction type and subtype (in
declaration order) has category `c`, then `categorize_transaction`
returns `c` — in particular even when a generic rule for the type is
declared earlier, since `specFirstExact` ignores subtype-less rules. -/
theorem C2_exact_subtype_wins (T : String) (sub : Option String)
    (m : String) (rules : RuleSet) (c : String)
    (hT : T ≠ "CREDIT_CARD")
    (hfirst : specFirstExact T sub rules.type_rules = some c) :
    categorize_transaction T sub m rules = c := by
  simp only [categorize_transaction, if_neg hT]
  rw [scanGeneral_of_exact T sub rules.type_rules c hfirst none]

/-- Witness for C2 at a concrete input, with a generic rule for the
same type declared before the exact-subtype rule. -/
theorem C2_witness :
    ("DIVIDEND" : String) ≠ "CREDIT_CARD"
    ∧ specFirstExact "DIVIDEND" (some "CASH")
        [⟨"DIVIDEND", none, "Generic Dividend"⟩,
         ⟨"DIVIDEND", some "CASH", "Cash Dividend"⟩] = some "Cash Dividend"
    ∧ categorize_transaction "DIVIDEND" (some "CASH") "Broker Payout"
        ⟨[⟨"DIVIDEND", none, "Generic Dividend"⟩,
          ⟨"DIVIDEND", some "CASH", "Cash Dividend"⟩], []⟩ = "Cash Dividend" :=
  ⟨by decide, by decide,
    C2_exact_subtype_wins "DIVIDEND" (some "CASH") "Broker Payout"
      ⟨[⟨"DIVIDEND", none, "Generic Dividend"⟩,
        ⟨"DIVIDEND", some "CASH", "Cash Dividend"⟩], []⟩ "Cash Dividend"
      (by decide) (by decide)⟩

/-- Claim C3: for a non-`CREDIT_CARD` transaction with no rule for its
type whose set subtype equals the transaction subtype,
`categorize_transaction` returns the category of the first generic
(subtype-less) rule for the type if one exists, and `""` otherwise
(later generic rules are ignored, since `specFirstGeneric` takes the
first). -/
theorem C3_generic_fallback (T : String) (sub : Option String)
    (m : String) (rules : RuleSet)
    (hT : T ≠ "CREDIT_CARD")
    (hnoexact : noExactMatch T sub rules.type_rules) :
    categorize_transaction T sub m rules =
      (specFirstGeneric T rules.type_rules).getD "" := by
  simp only [categorize_transaction, if_neg hT]
  rw [scanGeneral_no_exact T sub rules.type_rules hnoexact]
  cases specFirstGeneric T rules.type_rules <;> rfl

/-- Witness for C3 at a concrete input with two generic rules (the
first wins) and at another with no rule at all (empty string). -/
theorem C3_witness :
    ("INTEREST" : String) ≠ "CREDIT_CARD"
    ∧ noExactMatch "INTEREST" none
        [⟨"INTEREST", some "BONUS", "Bonus"⟩,
         ⟨"INTEREST", none, "Interest Income"⟩,
         ⟨"INTEREST", none, "Shadowed"⟩]
    ∧ categorize_transaction "INTEREST" none "Interest Paid"
        ⟨[⟨"INTEREST", some "BONUS", "Bonus"⟩,
          ⟨"INTEREST", none, "Interest Income"⟩,
          ⟨"INTEREST", none, "Shadowed"⟩], []⟩
        = (specFirstGeneric "INTEREST"
            [⟨"INTEREST", some "BONUS", "Bonus"⟩,
             ⟨"INTEREST", none, "Interest Income"⟩,
             ⟨"INTEREST", none, "Shadowed"⟩]).getD "" :=
  ⟨by decide, by decide,
    C3_generic_fallback "INTEREST" none "Interest Paid"
      ⟨[⟨"INTEREST", some "BONUS", "Bonus"⟩,
        ⟨"INTEREST", none, "Interest Income"⟩,
        ⟨"INTEREST", none, "Shadowed"⟩], []⟩ (by decide) (by decide)⟩

/-- Claim C4: for a `CREDIT_CARD` transaction, if the first
exact-subtype rule for `("CREDIT_CARD", sub)` has category `c`, then
`categorize_transaction` returns `c` for every merchant text and every
merchant-rule list (so merchant rules are never consulted), and
generic type rules play no role (`specFirstExact` ignores them). -/
theorem C4_cc_subtype_match (sub : Option String) (m : String)
    (tr : List TypeRule) (mr : List MerchantRule) (c : String)
    (hfirst : specFirstExact "CREDIT_CARD" sub tr = some c) :
    categorize_transaction "CREDIT_CARD" sub m ⟨tr, mr⟩ = c := by
  simp [categorize_transaction, scanCCSubtype_eq, hfirst]

/-- Witness for C4 at a concrete input whose merchant text would also
match a merchant rule: the subtype rule still wins. -/
theorem C4_witness :
    specFirstExact "CREDIT_CARD" (some "PAYMENT")
        [⟨"CREDIT_CARD", none, "Generic Card"⟩,
         ⟨"CREDIT_CARD", some "PAYMENT", "Credit Card Payment"⟩]
      = some "Credit Card Payment"
    ∧ categorize_transaction "CREDIT_CARD" (some "PAYMENT")
        "Payment Thank You"
        ⟨[⟨"CREDIT_CARD", none, "Generic Card"⟩,
          ⟨"CREDIT_CARD", some "PAYMENT", "Credit Card Payment"⟩],
         [⟨"payment", "WRONG"⟩]⟩ = "Credit Card Payment" :=
  ⟨by decide,
    C4_cc_subtype_match (some "PAYMENT") "Payment Thank You"
      [⟨"CREDIT_CARD", none, "Generic Card"⟩,
       ⟨"CREDIT_CARD", some "PAYMENT", "Credit Card Payment"⟩]
      [⟨"payment", "WRONG"⟩] "Credit Card Payment" (by decide)⟩

/-- Claim C5: for a `CREDIT_CARD` transaction with no exact-subtype
type-rule match, `categorize_transaction` lowercases the merchant text
and returns the category of the first merchant rule whose keyword is a
substring of it; if none matches it returns `""`. -/
theorem C5_cc_merchant_fallback (sub : Option String) (m : String)
    (rules : RuleSet)
    (hnoexact : noExactMatch "CREDIT_CARD" sub rules.type_rules) :
    categorize_transaction "CREDIT_CARD" sub m rules =
      (specFirstKeyword (lowerStr m) rules.merchant_rules).getD "" := by
  have h1 : specFirstExact "CREDIT_CARD" sub rules.type_rules = none :=
    (specFirstExact_eq_none _ _ _).mpr hnoexact
  simp only [categorize_transaction, if_pos rfl, scanCCSubtype_eq, h1,
    scanMerchant_eq]
  cases specFirstKeyword (lowerStr m) rules.merchant_rules <;> rfl

/-- Witness for C5 at a concrete input (keyword `uber`, merchant
`UBER EATS`). -/
theorem C5_witness :
    noExactMatch "CREDIT_CARD" (some "PURCHASE")
        [⟨"CREDIT_CARD", some "PAYMENT", "Credit Card Payment"⟩]
    ∧ categorize_transaction "CREDIT_CARD" (some "PURCHASE") "UBER EATS"
        ⟨[⟨"CREDIT_CARD", some "PAYMENT", "Credit Card Payment"⟩],
         [⟨"uber", "Transport"⟩]⟩
      = (specFirstKeyword (lowerStr "UBER EATS")
          [⟨"uber", "Transport"⟩]).getD "" :=
  ⟨by decide,
    C5_cc_merchant_fallback (some "PURCHASE") "UBER EATS"
      ⟨[⟨"CREDIT_CARD", some "PAYMENT", "Credit Card Payment"⟩],
       [⟨"uber", "Transport"⟩]⟩ (by decide)⟩

/-- Claim C6, counterexample: the code lowercases only the merchant
text, not the keyword, so changing the letter case of the keyword DOES
change whether the rule matches: keyword `uber` matches merchant
`Uber`, keyword `UBER` does not, and the results of
`categorize_transaction` differ. -/
theorem C6_counterexample :
    categorize_transaction "CREDIT_CARD" none "Uber"
      ⟨[], [⟨"uber", "Transport"⟩]⟩ = "Transport"
    ∧ categorize_transaction "CREDIT_CARD" none "Uber"
      ⟨[], [⟨"UBER", "Transport"⟩]⟩ = "" := by
  refine ⟨by decide, by decide⟩

/-- Claim C6, amended: merchant matching is case-insensitive in the
MERCHANT TEXT only: for a fixed rule set, two merchant texts with the
same lowercasing yield the same `categorize_transaction` result for a
`CREDIT_CARD` transaction.  Keywords are compared verbatim against the
lowercased text, so they must be pre-lowercased to match. -/
theorem C6_amended_merchant_text_case (sub : Option String)
    (m₁ m₂ : String) (rules : RuleSet)
    (hcase : lowerStr m₁ = lowerStr m₂) :
    categorize_transaction "CREDIT_CARD" sub m₁ rules =
      categorize_transaction "CREDIT_CARD" sub m₂ rules := by
  simp [categorize_transaction, hcase]

/-- Witness for C6 (amended) at a concrete input. -/
theorem C6_amended_witness :
    lowerStr "UBER Eats" = lowerStr "uber eats"
    ∧ categorize_transaction "CREDIT_CARD" none "UBER Eats"
        ⟨[], [⟨"uber", "Transport"⟩]⟩
      = categorize_transaction "CREDIT_CARD" none "uber eats"
        ⟨[], [⟨"uber", "Transport"⟩]⟩ :=
  ⟨by decide,
    C6_amended_merchant_text_case none "UBER Eats" "uber eats"
      ⟨[], [⟨"uber", "Transport"⟩]⟩ (by decide)⟩

/-- Claim C7: for a missing rule file, `load_rules` warns (flag `true`)
and returns the rule set with both lists empty, whatever the document
would have been; and `categorize_transaction` on the empty rule set
returns `""` for every transaction type, subtype and merchant text. -/
theorem C7_missing_file_empty_rules (doc : Option ParsedDoc) (T : String)
    (sub : Option String) (m : String) :
    load_rules false doc = Except.ok (⟨[], []⟩, true)
    ∧ categorize_transaction T sub m ⟨[], []⟩ = "" := by
  constructor
  · rfl
  · by_cases hT : T = "CREDIT_CARD" <;>
      simp [categorize_transaction, hT, scanCCSubtype, scanMerchant,
        scanGeneral]

/-- Claim C8, counterexample: an empty (or null) YAML document is
parseable — `yaml.safe_load` returns Python `None` — but then
`rules.get('type_rules', [])` raises `AttributeError`, so `load_rules`
does NOT return a rule set without error on every parseable
document. -/
theorem C8_counterexample :
    load_rules true none =
      Except.error "AttributeError: NoneType object has no attribute get" :=
  rfl

/-- Claim C8, amended: for every existing rule source whose document
parses to a top-level mapping (`safe_load` result not `None`),
`load_rules` returns, without error, the rule set taken verbatim from
the document, with each of the two list keys defaulting to the empty
list when missing; on the empty document it raises instead. -/
theorem C8_amended_parses_verbatim (d : ParsedDoc) :
    ∃ rs : RuleSet,
      load_rules true (some d) = Except.ok (rs, false)
      ∧ rs.type_rules = d.type_rules.getD []
      ∧ rs.merchant_rules = d.merchant_rules.getD [] :=
  ⟨_, rfl, rfl, rfl⟩

/-- Claim C9: for a non-`CREDIT_CARD` transaction the result of
`categorize_transaction` depends only on the transaction type, the
subtype and the `type_rules` list: the merchant text and the
`merchant_rules` list may be replaced arbitrarily without changing the
result. -/
theorem C9_non_cc_ignores_merchant (T : String) (sub : Option String)
    (m₁ m₂ : String) (tr : List TypeRule)
    (mr₁ mr₂ : List MerchantRule)
    (hT : T ≠ "CREDIT_CARD") :
    categorize_transaction T sub m₁ ⟨tr, mr₁⟩ =
      categorize_transaction T sub m₂ ⟨tr, mr₂⟩ := by
  simp [categorize_transaction, hT]

/-- Witness for C9 at a concrete input: a type with no type rule and a
merchant rule that matches the first merchant text still yields the
same (empty) result under both merchant inputs. -/
theorem C9_witness :
    ("WITHDRAWAL" : String) ≠ "CREDIT_CARD"
    ∧ categorize_transaction "WITHDRAWAL" none "Uber Eats"
        ⟨[], [⟨"uber", "Transport"⟩]⟩
      = categorize_transaction "WITHDRAWAL" none "Grocery Store"
        ⟨[], []⟩ :=
  ⟨by decide,
    C9_non_cc_ignores_merchant "WITHDRAWAL" none "Uber Eats"
      "Grocery Store" [] [⟨"uber", "Transport"⟩] [] (by decide)⟩

/-- Claim C10, counterexample to its parenthetical: with first merchant
rule `{keyword: "", category: ""}` the keyword matches the merchant
text, yet the `CREDIT_CARD` transaction reaching merchant matching
still returns the empty string (because the rule category itself is
empty). -/
theorem C10_counterexample :
    ("" : String).data <:+: (lowerStr "Grocery Store").data
    ∧ categorize_transaction "CREDIT_CARD" none "Grocery Store"
        ⟨[], [⟨"", ""⟩]⟩ = "" := by
  refine ⟨⟨[], (lowerStr "Grocery Store").data, by simp⟩, by decide⟩

/-- Claim C10, amended: an empty keyword is a substring of every
merchant text, so for a `CREDIT_CARD` transaction with no
exact-subtype type-rule match whose first merchant rule has keyword
`""`, `categorize_transaction` returns that rule's category for every
merchant text (hence the result is `""` only when that category is
itself `""`). -/
theorem C10_amended_empty_keyword (sub : Option String) (m : String)
    (tr : List TypeRule) (c : String) (mr : List MerchantRule)
    (hnoexact : noExactMatch "CREDIT_CARD" sub tr) :
    categorize_transaction "CREDIT_CARD" sub m ⟨tr, ⟨"", c⟩ :: mr⟩ = c := by
  have h1 : specFirstExact "CREDIT_CARD" sub tr = none :=
    (specFirstExact_eq_none _ _ _).mpr hnoexact
  have hk : ("" : String).data <:+: (lowerStr m).data :=
    ⟨[], (lowerStr m).data, by simp⟩
  simp [categorize_transaction, scanCCSubtype_eq, h1, scanMerchant, hk]

/-- Witness for C10 (amended) at a concrete input. -/
theorem C10_amended_witness :
    noExactMatch "CREDIT_CARD" none
        [⟨"CREDIT_CARD", some "PAYMENT", "Credit Card Payment"⟩]
    ∧ categorize_transaction "CREDIT_CARD" none "Grocery Store"
        ⟨[⟨"CREDIT_CARD", some "PAYMENT", "Credit Card Payment"⟩],
         [⟨"", "Misc"⟩, ⟨"uber", "Transport"⟩]⟩ = "Misc" :=
  ⟨by decide,
    C10_amended_empty_keyword none "Grocery Store"
      [⟨"CREDIT_CARD", some "PAYMENT", "Credit Card Payment"⟩] "Misc"
      [⟨"uber", "Transport"⟩] (by decide)⟩
